import Mathlib

/-
Verification of the linkedin_scraper crawl pipeline
(src/linkedin_scraper/scraper.py, models.py, constants.py).

Shallow embedding conventions:
- Strings are Lean `String`; Python `str.lower()` is per-character lowering
  (`lowerStr`), Python `needle in hay` is `strContains`.
- The browser/DOM environment is abstracted: discovery pages, detail pages
  and per-item extraction outcomes are inputs supplied by an environment.
- Exceptions are modelled explicitly: a function that catches everything is
  total; an exception that propagates is an `Except.error` / `Option` value.
- The SQLite store is a list of rows.  `Session.merge` on a transient ORM
  instance (no primary key set) always produces an INSERT, so a pending
  batch is modelled as a list of fresh rows appended on commit; the UNIQUE
  constraint on `job_id` makes the commit fail when a pending key collides
  with an existing row or with another pending row.
-/

/-- A fully extracted job-details record, the dict built by
`_get_job_details` (scraper.py lines 179-197).  Field order matches the
dict insertion order: job_id, title, company, description, url, location. -/
structure JobDetails where
  job_id : String
  title : String
  company : String
  description : String
  url : String
  location : String
deriving DecidableEq

/-- A failure entry of the `failed_jobs` list as consumed by
`_save_results` (scraper.py line 307): keys `job_id` and `error`. -/
structure FailRec where
  job_id : String
  error : String
deriving DecidableEq

/-- `LinkedInConstants.BASE_URL` (constants.py line 2). -/
def BASE_URL : String := "https://www.linkedin.com"

/-- The detail-page URL built in `_get_job_details` (scraper.py line 173). -/
def detailUrl (jobId : String) : String :=
  BASE_URL ++ "/jobs/search/?currentJobId=" ++ jobId

/-- Python `str.lower()`: per-character lowercasing. -/
def lowerStr (s : String) : String := String.mk (s.data.map Char.toLower)

/-- Python `needle in hay` on strings: substring test. -/
def strContains (hay needle : String) : Bool := decide (needle.data <:+: hay.data)

/-- The `content` string of `_should_include_job` (scraper.py line 215):
`" ".join(str(value).lower() for value in job_details.values())`, with the
dict values in insertion order. -/
def joinedContent (d : JobDetails) : String :=
  lowerStr d.job_id ++ " " ++ lowerStr d.title ++ " " ++ lowerStr d.company ++
    " " ++ lowerStr d.description ++ " " ++ lowerStr d.url ++ " " ++ lowerStr d.location

/-- `_should_include_job` (scraper.py lines 205-230): reject when `contains`
is non-empty and no keyword occurs in the joined lowered content; then
reject when some `non_contains` keyword occurs; otherwise accept. -/
def shouldIncludeJob (d : JobDetails) (cs ns : List String) : Bool :=
  let content := joinedContent d
  if !cs.isEmpty && !(cs.any fun k => strContains content (lowerStr k)) then
    false
  else if !ns.isEmpty && (ns.any fun k => strContains content (lowerStr k)) then
    false
  else
    true

/-- The rendered state of a job detail page, as seen by the four
`find_element` calls of `_get_job_details`: `none` means the element is
absent and the lookup raises `NoSuchElementException`. -/
structure DetailPage where
  title : Option String
  company : Option String
  description : Option String
  location : Option String
deriving DecidableEq

/-- `_get_job_details` (scraper.py lines 159-203): the dict literal looks up
title, company, description and location inside one `try`; any missing
element makes the whole call return `None`, otherwise the fully populated
dict is returned. -/
def getJobDetails (jobId : String) (p : DetailPage) : Option JobDetails :=
  match p.title, p.company, p.description, p.location with
  | some t, some c, some dsc, some l =>
    some { job_id := jobId, title := t, company := c, description := dsc,
           url := detailUrl jobId, location := l }
  | _, _, _, _ => none

/-- One iteration of the pagination loop of `_get_all_job_ids`
(scraper.py lines 131-150), seen from the environment:
`stop` — the "next page" lookup raises `NoSuchElementException`
(no control found, normal termination);
`next ids` — the control is found, the click and the page read succeed and
`_get_job_ids` yields `ids`;
`nextErr` — some other exception is raised during the step. -/
inductive PageStep
  | stop
  | next (ids : List String)
  | nextErr
deriving DecidableEq

/-- The `while True` loop of `_get_all_job_ids` (scraper.py lines 131-150):
accumulate page ids into the running set until the next-page control is
absent (`stop`, breaks normally) or a step raises (`nextErr`, breaks after
logging); in both cases the set accumulated so far is kept. -/
def paginate (acc : Finset String) : List PageStep → Finset String
  | [] => acc
  | PageStep.stop :: _ => acc
  | PageStep.nextErr :: _ => acc
  | PageStep.next ids :: rest => paginate (acc ∪ ids.toFinset) rest

/-- `_get_all_job_ids` (scraper.py lines 116-157) after the initial
navigation: `firstPage = none` models an exception while reading the first
results page (caught by the outer `except`, leaving the accumulator empty);
otherwise the ids of the first page seed the set and the pagination loop runs.
The function is total: no error is raised to the caller. -/
def getAllJobIds (firstPage : Option (List String)) (steps : List PageStep) : Finset String :=
  match firstPage with
  | none => ∅
  | some ids => paginate ids.toFinset steps

/-- Spec-side definition (spec.md section 4.2): the id lists of the pages
actually visited by the loop, cut at the first step where the next-page
control is absent or the step errors. -/
def pagesVisited : List PageStep → List (List String)
  | [] => []
  | PageStep.stop :: _ => []
  | PageStep.nextErr :: _ => []
  | PageStep.next ids :: rest => ids :: pagesVisited rest

/-- Spec-side definition (spec.md section 4.2): the union of per-page
extracted id sets. -/
def unionOfPages (ps : List (List String)) : Finset String :=
  ps.foldr (fun l acc => l.toFinset ∪ acc) ∅

/-- A row of the `jobs` SQLite table (models.py lines 13-27), minus the
surrogate integer primary key `id` and the timestamp.  `job_id` carries a
UNIQUE constraint. -/
structure Row where
  job_id : String
  title : Option String
  company : Option String
  description : Option String
  url : Option String
  location : Option String
  success : Bool
  error : Option String
deriving DecidableEq

/-- The ORM instance built for a successful job in `_save_results`
(scraper.py lines 295-303). -/
def rowOfJob (j : JobDetails) : Row :=
  { job_id := j.job_id, title := some j.title, company := some j.company,
    description := some j.description, url := some j.url,
    location := some j.location, success := true, error := none }

/-- The ORM instance built for a failed job in `_save_results`
(scraper.py line 307): only `job_id`, `success=False` and `error` are set,
the content columns stay NULL. -/
def rowOfFail (f : FailRec) : Row :=
  { job_id := f.job_id, title := none, company := none, description := none,
    url := none, location := none, success := false, error := some f.error }

/-- The pending inserts of one `_save_results` call.  `session.merge` is
applied to transient instances whose integer primary key is unset, so every
merge becomes an INSERT (merge reconciles by primary key, and `job_id` is
not the primary key). -/
def mkPending (jobs : List JobDetails) (failedJobs : List FailRec) : List Row :=
  jobs.map rowOfJob ++ failedJobs.map rowOfFail

/-- Keys of a list of rows. -/
def keysOf (rs : List Row) : List String := rs.map Row.job_id

/-- Whether committing `pending` on top of `db` satisfies the UNIQUE
constraint on `job_id`: no pending key repeats and none collides with an
existing row. -/
def commitOk (db pending : List Row) : Bool :=
  decide ((keysOf pending).Nodup ∧ ∀ k ∈ keysOf pending, k ∉ keysOf db)

/-- Outcome of one `_save_results` call: the store contents afterwards, the
error logged by the `except` branch (if any), and the exception propagated
to the caller — always `none`, because `except Exception` catches
everything, logs, and rolls back (scraper.py lines 315-317). -/
structure SaveOut where
  db : List Row
  loggedError : Option String
  raised : Option String
deriving DecidableEq

/-- `_save_results` (scraper.py lines 284-320): merge every job and failure
into the session, then commit; a commit failure (the only failure mode
reachable here is the UNIQUE violation on `job_id`) is caught, logged and
rolled back, leaving the store as it was, and the call returns normally. -/
def saveResults (db : List Row) (jobs : List JobDetails) (failedJobs : List FailRec) : SaveOut :=
  let pending := mkPending jobs failedJobs
  if commitOk db pending then
    { db := db ++ pending, loggedError := none, raised := none }
  else
    { db := db, loggedError := some "IntegrityError", raised := none }

/-- The `stats` object of `_save_results_json` (scraper.py lines 268-272). -/
structure JsonStats where
  total_jobs : Nat
  successful : Nat
  failed : Nat
deriving DecidableEq

/-- The JSON document of `_save_results_json` (scraper.py lines 265-273). -/
structure JsonOut where
  successful_jobs : List JobDetails
  failed_jobs : List FailRec
  stats : JsonStats
deriving DecidableEq

/-- The document `_save_results_json` (scraper.py lines 255-282) would
write.  Note: no caller in the repository invokes `_save_results_json`, and
its body references `os.path.abspath` although `scraper.py` never imports
`os`. -/
def saveResultsJsonOutput (jobs : List JobDetails) (failedJobs : List FailRec) : JsonOut :=
  { successful_jobs := jobs, failed_jobs := failedJobs,
    stats := { total_jobs := jobs.length + failedJobs.length,
               successful := jobs.length, failed := failedJobs.length } }

/-- An exception propagating out of the `try` block of `scrape_jobs`. -/
inductive RunErr
  | authErr
  | discErr
deriving DecidableEq

/-- Outcome of one `_get_job_details` call as seen by the extraction loop
(scraper.py lines 66-76): a populated dict, `None` (the internal `except`
caught a missing element), or an exception that escapes `_get_job_details`
(e.g. from `driver.get` before its `try`) and is caught by the loop. -/
inductive ExtractRes
  | ok (d : JobDetails)
  | noRecord
  | raisesExc

/-- The external world of one run: whether `_login` succeeds, the value
returned (or exception raised) by `_get_all_job_ids` for each configured
`geo_id` in order, and the outcome of `_get_job_details` per job id. -/
structure ScrapeEnv where
  loginOk : Bool
  scopes : List (Except Unit (List String))
  extract : String → ExtractRes

/-- The keyword configuration consumed by `_should_include_job`
(config.py lines 27-28). -/
structure FilterCfg where
  contains : List String
  nonContains : List String

/-- Observable outcome of one `scrape_jobs` run (scraper.py lines 37-85). -/
structure RunOut where
  raised : Option RunErr
  released : Bool
  attempts : List String
  jobs : List JobDetails
  failed : List FailRec
  saveCalled : Bool
  jsonWritten : Bool
  db : List Row

/-- The discovery stage of `scrape_jobs` (scraper.py lines 62-64):
`job_ids.extend(ids)` per scope, in configuration order, with no cross-scope
deduplication; an exception from a per-scope `_get_all_job_ids` call (its
initial `driver.get` is outside any handler) propagates and discards the
accumulator. -/
def collectIds : List (Except Unit (List String)) → Except RunErr (List String)
  | [] => Except.ok []
  | Except.error _ :: _ => Except.error RunErr.discErr
  | Except.ok ids :: rest =>
    match collectIds rest with
    | Except.ok more => Except.ok (ids ++ more)
    | Except.error e => Except.error e

/-- The extraction loop of `scrape_jobs` (scraper.py lines 66-76): for each
id attempt `_get_job_details`; append to `all_jobs` when a dict is returned
and the filter accepts it; on `None` or on an exception, log and continue —
nothing is ever appended to `failed_jobs`. -/
def extractLoop (ext : String → ExtractRes) (cfg : FilterCfg) : List String → List JobDetails
  | [] => []
  | id :: rest =>
    match ext id with
    | ExtractRes.ok d =>
      if shouldIncludeJob d cfg.contains cfg.nonContains then
        d :: extractLoop ext cfg rest
      else
        extractLoop ext cfg rest
    | _ => extractLoop ext cfg rest

/-- `scrape_jobs` (scraper.py lines 37-85).  The `try` wraps login,
discovery and the extraction loop; `finally: driver.quit()` releases the
session on every exit path; `_save_results` runs after the `finally` only
when the run completed normally and produced at least one successful or
failed job; `_save_results_json` is never invoked. -/
def scrapeJobs (cfg : FilterCfg) (env : ScrapeEnv) (db0 : List Row) : RunOut :=
  if env.loginOk then
    match collectIds env.scopes with
    | Except.error e =>
      { raised := some e, released := true, attempts := [], jobs := [],
        failed := [], saveCalled := false, jsonWritten := false, db := db0 }
    | Except.ok jobIds =>
      let jobs := extractLoop env.extract cfg jobIds
      let failedJobs : List FailRec := []
      if jobs.length > 0 || failedJobs.length > 0 then
        { raised := none, released := true, attempts := jobIds, jobs := jobs,
          failed := failedJobs, saveCalled := true, jsonWritten := false,
          db := (saveResults db0 jobs failedJobs).db }
      else
        { raised := none, released := true, attempts := jobIds, jobs := jobs,
          failed := failedJobs, saveCalled := false, jsonWritten := false, db := db0 }
  else
    { raised := some RunErr.authErr, released := true, attempts := [], jobs := [],
      failed := [], saveCalled := false, jsonWritten := false, db := db0 }

/-- Empty keyword configuration (both filter lists empty). -/
def cfg0 : FilterCfg := { contains := [], nonContains := [] }

/-- A record whose text mentions only "Rust" out of a required pair. -/
def rustRec : JobDetails :=
  { job_id := "1", title := "Rust developer", company := "Acme",
    description := "Systems work", url := "http://x", location := "Remote" }

/-- A record mentioning both "Rust" and "Intern". -/
def internRec : JobDetails :=
  { job_id := "2", title := "Rust Intern", company := "Acme",
    description := "Junior role", url := "http://x", location := "Remote" }

/-- A successful details record for item X. -/
def jobX : JobDetails :=
  { job_id := "X", title := "Title", company := "Co", description := "Desc",
    url := detailUrl ("X"), location := "Loc" }

/-- A failure entry for item X. -/
def failX : FailRec := { job_id := "X", error := "boom" }

/-- The store after a first run saved item X as a failure. -/
def dbAfterRun1 : List Row := (saveResults [] [] ([failX])).db

/-- A batch whose commit violates the UNIQUE constraint on `job_id`. -/
def dupBatch : List JobDetails := [jobX, jobX]

/-- Two scopes whose discovered id sets overlap on B. -/
def envC1 : ScrapeEnv :=
  { loginOk := true,
    scopes := [Except.ok (["A", "B"]), Except.ok (["B", "C"])],
    extract := fun _ => ExtractRes.noRecord }

/-- Details for item Y. -/
def dY : JobDetails :=
  { job_id := "Y", title := "T", company := "C", description := "D",
    url := detailUrl ("Y"), location := "L" }

/-- A run discovering X then Y where extraction raises on X and succeeds on Y. -/
def envC2 : ScrapeEnv :=
  { loginOk := true, scopes := [Except.ok (["X", "Y"])],
    extract := fun id => if id = "X" then ExtractRes.raisesExc else ExtractRes.ok dY }

/-- Details for item Z. -/
def dZ : JobDetails :=
  { job_id := "Z", title := "T", company := "C", description := "D",
    url := detailUrl ("Z"), location := "L" }

/-- A run that discovers and successfully extracts one job. -/
def envC9 : ScrapeEnv :=
  { loginOk := true, scopes := [Except.ok (["Z"])],
    extract := fun _ => ExtractRes.ok dZ }

/-- A fully rendered detail page. -/
def pg987 : DetailPage :=
  { title := some ("T"), company := some ("Co"), description := some ("De"),
    location := some ("Lo") }

/-- The record extracted from `pg987` for item id 987. -/
def d987 : JobDetails :=
  { job_id := "987", title := "T", company := "Co", description := "De",
    url := detailUrl ("987"), location := "Lo" }

theorem str_data_append (s t : String) : (s ++ t).data = s.data ++ t.data := by
  cases s; cases t; rfl

theorem lowerStr_data (s : String) : (lowerStr s).data = s.data.map Char.toLower := rfl

theorem lowerStr_append (s t : String) : lowerStr (s ++ t) = lowerStr s ++ lowerStr t := by
  apply String.ext
  simp [lowerStr_data, str_data_append]

theorem strContains_iff (hay needle : String) :
    strContains hay needle = true ↔ needle.data <:+: hay.data := by
  simp [strContains]

theorem strContains_refl (s : String) : strContains s s = true :=
  (strContains_iff s s).mpr (List.infix_refl s.data)

theorem strContains_append_left (a b n : String) (h : strContains a n = true) :
    strContains (a ++ b) n = true := by
  rw [strContains_iff] at h ⊢
  rw [str_data_append]
  exact h.trans (List.prefix_append a.data b.data).isInfix

theorem strContains_append_right (a b n : String) (h : strContains b n = true) :
    strContains (a ++ b) n = true := by
  rw [strContains_iff] at h ⊢
  rw [str_data_append]
  exact h.trans (List.suffix_append a.data b.data).isInfix

theorem strContains_trans (hay mid n : String) (h1 : strContains mid n = true)
    (h2 : strContains hay mid = true) : strContains hay n = true := by
  rw [strContains_iff] at h1 h2 ⊢
  exact h1.trans h2

theorem strContains_joined_of_url (d : JobDetails) (n : String)
    (h : strContains (lowerStr d.url) n = true) :
    strContains (joinedContent d) n = true := by
  unfold joinedContent
  apply strContains_append_left
  apply strContains_append_left
  apply strContains_append_right
  exact h

theorem strContains_joined_of_jobid (d : JobDetails) (n : String)
    (h : strContains (lowerStr d.job_id) n = true) :
    strContains (joinedContent d) n = true := by
  unfold joinedContent
  iterate 10 apply strContains_append_left
  exact h

theorem linkedin_in_detail_url (jid : String) :
    strContains (lowerStr (detailUrl jid)) ("linkedin") = true := by
  unfold detailUrl
  rw [lowerStr_append]
  apply strContains_append_left
  decide

theorem shouldIncludeJob_eq (d : JobDetails) (cs ns : List String) :
    shouldIncludeJob d cs ns =
      ((cs.isEmpty || cs.any fun k => strContains (joinedContent d) (lowerStr k)) &&
       !(ns.any fun k => strContains (joinedContent d) (lowerStr k))) := by
  simp only [shouldIncludeJob]
  by_cases hn : ns = []
  · subst hn
    cases hc : cs.isEmpty <;>
      cases h1 : cs.any (fun k => strContains (joinedContent d) (lowerStr k)) <;>
        simp [hc, h1]
  · have hne : ns.isEmpty = false := by
      simp [List.isEmpty_iff, hn]
    cases hc : cs.isEmpty <;>
      cases h1 : cs.any (fun k => strContains (joinedContent d) (lowerStr k)) <;>
        cases h2 : ns.any (fun k => strContains (joinedContent d) (lowerStr k)) <;>
          simp [hc, h1, h2, hne]

theorem shouldIncludeJob_true_iff (d : JobDetails) (cs ns : List String) :
    shouldIncludeJob d cs ns = true ↔
      ((cs = [] ∨ ∃ k ∈ cs, strContains (joinedContent d) (lowerStr k) = true) ∧
       ∀ k ∈ ns, strContains (joinedContent d) (lowerStr k) = false) := by
  rw [shouldIncludeJob_eq]
  simp [List.isEmpty_iff, List.any_eq_true, Bool.not_eq_true']

theorem shouldIncludeJob_false_of_excluded (d : JobDetails) (cs ns : List String) (k : String)
    (hk : k ∈ ns) (h : strContains (joinedContent d) (lowerStr k) = true) :
    shouldIncludeJob d cs ns = false := by
  cases hres : shouldIncludeJob d cs ns
  · rfl
  · have hfalse := ((shouldIncludeJob_true_iff d cs ns).mp hres).2 k hk
    rw [h] at hfalse
    cases hfalse

theorem paginate_eq_union (steps : List PageStep) :
    ∀ acc, paginate acc steps = acc ∪ unionOfPages (pagesVisited steps) := by
  induction steps with
  | nil => intro acc; simp [paginate, pagesVisited, unionOfPages]
  | cons s rest ih =>
    intro acc
    cases s with
    | stop => simp [paginate, pagesVisited, unionOfPages]
    | nextErr => simp [paginate, pagesVisited, unionOfPages]
    | next ids => simp [paginate, pagesVisited, unionOfPages, ih, Finset.union_assoc]

theorem pagesVisited_cut (pre post : List PageStep) (s : PageStep)
    (hpre : ∀ x ∈ pre, ∃ l, x = PageStep.next l)
    (hs : s = PageStep.stop ∨ s = PageStep.nextErr) :
    pagesVisited (pre ++ s :: post) = pagesVisited pre := by
  induction pre with
  | nil => rcases hs with h | h <;> subst h <;> simp [pagesVisited]
  | cons x rest ih =>
    obtain ⟨l, hl⟩ := hpre x (List.mem_cons_self x rest)
    subst hl
    have hrest : pagesVisited (rest ++ s :: post) = pagesVisited rest :=
      ih (fun y hy => hpre y (List.mem_cons_of_mem _ hy))
    show pagesVisited (PageStep.next l :: (rest ++ s :: post)) =
      pagesVisited (PageStep.next l :: rest)
    simp only [pagesVisited]
    rw [hrest]

theorem collectIds_map_ok (ls : List (List String)) :
    collectIds (ls.map Except.ok) = Except.ok ls.flatten := by
  induction ls with
  | nil => rfl
  | cons h t ih => simp [collectIds, ih]

/-- C5: the content filter accepts a record iff the required-keyword list is
empty or at least one required keyword occurs case-insensitively as a
substring of the joined text of the record (OR semantics), and no excluded
keyword occurs in that text; with required rust/go a record containing only
"rust" is accepted, and with excluded "intern" a record containing "intern"
is rejected despite a required-keyword match. -/
theorem c5_filter_semantics :
    (∀ (d : JobDetails) (cs ns : List String),
        shouldIncludeJob d cs ns = true ↔
          ((cs = [] ∨ ∃ k ∈ cs, strContains (joinedContent d) (lowerStr k) = true) ∧
           ∀ k ∈ ns, strContains (joinedContent d) (lowerStr k) = false))
    ∧ shouldIncludeJob rustRec (["rust", "go"]) [] = true
    ∧ shouldIncludeJob internRec (["rust"]) (["intern"]) = false :=
  ⟨shouldIncludeJob_true_iff, by decide, by decide⟩

/-- C6: paginated discovery stops at the first page step where the
next-page control is absent and returns the union of the first-page ids
and all ids of the pages visited before that point; a non-termination error
during a page step likewise stops pagination, still returning the set
accumulated so far, and no error is raised to the caller (the function is
total; a first-page failure yields the empty set). -/
theorem c6_pagination (ids0 : List String) (pre post : List PageStep)
    (hpre : ∀ x ∈ pre, ∃ l, x = PageStep.next l) :
    getAllJobIds (some ids0) (pre ++ PageStep.stop :: post) =
      ids0.toFinset ∪ unionOfPages (pagesVisited pre)
    ∧ getAllJobIds (some ids0) (pre ++ PageStep.nextErr :: post) =
      ids0.toFinset ∪ unionOfPages (pagesVisited pre)
    ∧ getAllJobIds none post = ∅ := by
  refine ⟨?_, ?_, rfl⟩
  · show paginate ids0.toFinset (pre ++ PageStep.stop :: post) = _
    rw [paginate_eq_union, pagesVisited_cut pre post _ hpre (Or.inl rfl)]
  · show paginate ids0.toFinset (pre ++ PageStep.nextErr :: post) = _
    rw [paginate_eq_union, pagesVisited_cut pre post _ hpre (Or.inr rfl)]

theorem c6_pagination_witness :
    getAllJobIds (some (["b"])) ([PageStep.next (["a"])] ++ PageStep.stop :: [PageStep.next (["z"])]) =
      (["b"] : List String).toFinset ∪ unionOfPages (pagesVisited ([PageStep.next (["a"])]))
    ∧ getAllJobIds (some (["b"])) ([PageStep.next (["a"])] ++ PageStep.nextErr :: [PageStep.next (["z"])]) =
      (["b"] : List String).toFinset ∪ unionOfPages (pagesVisited ([PageStep.next (["a"])]))
    ∧ getAllJobIds none ([PageStep.next (["z"])]) = ∅ :=
  c6_pagination (["b"]) ([PageStep.next (["a"])]) ([PageStep.next (["z"])])
    (fun x hx => by
      cases hx with
      | head => exact ⟨["a"], rfl⟩
      | tail _ h => cases h)

/-- C7 counterexample: a detail page with title, organization and
description present but the location element absent makes the whole
extraction call return no record, contradicting the claim that absence of
the location field alone does not cause the call to fail. -/
theorem c7_counterexample :
    getJobDetails ("1")
      ({ title := some ("T"), company := some ("C"),
         description := some ("D"), location := none }) = none := rfl

/-- C7 amended: extraction fails as a whole exactly when any of title,
organization, description or location is missing from the page — location
included — and otherwise returns the fully populated record; it never
returns a partially-populated record. -/
theorem c7_amended (jid : String) (p : DetailPage) :
    (getJobDetails jid p = none ↔
      (p.title = none ∨ p.company = none ∨ p.description = none ∨ p.location = none))
    ∧ (getJobDetails jid p = none ∨
       ∃ t c dsc l,
         p = { title := some t, company := some c, description := some dsc,
               location := some l } ∧
         getJobDetails jid p =
           some { job_id := jid, title := t, company := c, description := dsc,
                  url := detailUrl jid, location := l }) := by
  obtain ⟨t, c, dsc, l⟩ := p
  cases t <;> cases c <;> cases dsc <;> cases l <;> simp [getJobDetails]

/-- C10: the filtered text is built from every value of the extracted
record, including the item id and the source URL: for any record produced
by detail extraction, the joined content contains "linkedin" (a substring
of the URL), so excluding "linkedin" rejects the record regardless of the
required keywords; and a required keyword that occurs (case-insensitively)
in the numeric id alone suffices for acceptance when no exclusion applies. -/
theorem c10_filter_sees_all_fields (jid k : String) (p : DetailPage) (d : JobDetails)
    (req : List String)
    (hd : getJobDetails jid p = some d)
    (hk : strContains (lowerStr jid) (lowerStr k) = true) :
    strContains (joinedContent d) ("linkedin") = true
    ∧ shouldIncludeJob d req (["linkedin"]) = false
    ∧ shouldIncludeJob d ([k]) [] = true := by
  obtain ⟨t, c, dsc, l⟩ := p
  obtain ⟨djid, dt, dc, ddsc, durl, dloc⟩ := d
  cases t <;> cases c <;> cases dsc <;> cases l <;> simp [getJobDetails] at hd
  obtain ⟨h1, h2, h3, h4, h5, h6⟩ := hd
  subst h1; subst h2; subst h3; subst h4; subst h5; subst h6
  refine ⟨?_, ?_, ?_⟩
  · exact strContains_joined_of_url _ _ (linkedin_in_detail_url jid)
  · apply shouldIncludeJob_false_of_excluded _ _ _ ("linkedin") (List.mem_singleton.mpr rfl)
    have hlow : lowerStr ("linkedin") = "linkedin" := by decide
    rw [hlow]
    exact strContains_joined_of_url _ _ (linkedin_in_detail_url jid)
  · refine (shouldIncludeJob_true_iff _ _ _).mpr
      ⟨Or.inr ⟨k, List.mem_singleton.mpr rfl, ?_⟩, by simp⟩
    exact strContains_trans _ (lowerStr jid) _ hk
      (strContains_joined_of_jobid _ _ (strContains_refl (lowerStr jid)))

theorem c10_filter_sees_all_fields_witness :
    strContains (joinedContent d987) ("linkedin") = true
    ∧ shouldIncludeJob d987 (["zzz"]) (["linkedin"]) = false
    ∧ shouldIncludeJob d987 (["87"]) [] = true :=
  c10_filter_sees_all_fields ("987") ("87") pg987 d987 (["zzz"]) (by decide) (by decide)

/-- C1 counterexample: with two scopes whose discovered id lists are
A,B and B,C, the extraction loop of the orchestrator attempts id B twice, not
once — `scrape_jobs` concatenates the per-scope lists without run-wide
deduplication. -/
theorem c1_counterexample :
    (scrapeJobs cfg0 envC1 []).attempts.count ("B") = 2 := by rfl

/-- C1 amended: ids are deduplicated only within one single-scope
discovery; across scopes the per-scope lists are concatenated, so the
extraction loop attempts each id once per scope whose discovery returned
it (an id discovered under two scopes is attempted twice). -/
theorem c1_amended (cfg : FilterCfg) (env : ScrapeEnv) (db0 : List Row)
    (ls : List (List String)) (id : String)
    (hlogin : env.loginOk = true) (hscopes : env.scopes = ls.map Except.ok) :
    (scrapeJobs cfg env db0).attempts = ls.flatten ∧
    (scrapeJobs cfg env db0).attempts.count id = (ls.map fun l => l.count id).sum := by
  have hatt : (scrapeJobs cfg env db0).attempts = ls.flatten := by
    simp only [scrapeJobs, hlogin, hscopes, collectIds_map_ok, if_true]
    split <;> rfl
  exact ⟨hatt, by rw [hatt]; exact List.count_flatten id ls⟩

theorem c1_amended_witness :
    (scrapeJobs cfg0 envC1 []).attempts = ([["A", "B"], ["B", "C"]] : List (List String)).flatten
    ∧ (scrapeJobs cfg0 envC1 []).attempts.count ("B") =
        (([["A", "B"], ["B", "C"]] : List (List String)).map fun l => l.count ("B")).sum :=
  c1_amended cfg0 envC1 [] ([["A", "B"], ["B", "C"]]) ("B") rfl rfl

/-- C2: evaluating `scrape_jobs` where discovery yields X then Y and
extraction raises on X shows that Y is still attempted and its record kept,
but the final failed list is empty — `failed_jobs` is initialised and
persisted, yet nothing is ever appended to it, contradicting the
docstring promise to track failed jobs. -/
theorem c2_failures_never_recorded :
    (scrapeJobs cfg0 envC2 []).attempts = (["X", "Y"])
    ∧ (scrapeJobs cfg0 envC2 []).jobs = ([dY])
    ∧ (scrapeJobs cfg0 envC2 []).failed = [] := by
  refine ⟨rfl, rfl, rfl⟩

/-- C3: saving item X as a failure in run 1 and then as a success in run 2
does not upsert: the `merge` of the second save inserts a new row (merge keys on
the unset integer primary key, not on `job_id`), the UNIQUE constraint
fires, the batch is rolled back, an error is logged — and the store still
holds the run-1 failure row, not the fields of the latest save. -/
theorem c3_second_save_is_rejected :
    (saveResults dbAfterRun1 ([jobX]) []).db = dbAfterRun1
    ∧ (saveResults dbAfterRun1 ([jobX]) []).loggedError.isSome = true
    ∧ ∀ r ∈ (saveResults dbAfterRun1 ([jobX]) []).db, r.success = false := by
  decide

/-- C4 counterexample: a batch whose commit fails (two entries share one
`job_id`) leaves the store untouched, but the save call does not fail: the
exception is caught and logged, and the caller sees a normal return
(`raised = none`), contradicting the claim that the error is reported to
the caller. -/
theorem c4_counterexample :
    (saveResults [] dupBatch []).loggedError.isSome = true
    ∧ (saveResults [] dupBatch []).raised = none
    ∧ (saveResults [] dupBatch []).db = [] := by
  decide

/-- C4 amended: persistence of a batch is all-or-nothing — when the commit
fails, no row of the batch becomes visible and rows already in the store
are untouched — but the error is caught, logged and swallowed: the save
call returns normally instead of failing. -/
theorem c4_amended (db : List Row) (jobs : List JobDetails) (failedJobs : List FailRec)
    (h : commitOk db (mkPending jobs failedJobs) = false) :
    (saveResults db jobs failedJobs).db = db
    ∧ (saveResults db jobs failedJobs).raised = none
    ∧ (saveResults db jobs failedJobs).loggedError.isSome = true := by
  simp [saveResults, h]

theorem c4_amended_witness :
    commitOk [] (mkPending dupBatch []) = false
    ∧ ((saveResults [] dupBatch []).db = []
       ∧ (saveResults [] dupBatch []).raised = none
       ∧ (saveResults [] dupBatch []).loggedError.isSome = true) :=
  ⟨by decide, c4_amended [] dupBatch [] (by decide)⟩

/-- C8: on every exit path of a run — normal completion, authentication
failure, or an exception propagating from discovery — the browsing session
is released (`driver.quit()` sits in the `finally` of `scrape_jobs`). -/
theorem c8_session_release (cfg : FilterCfg) (env : ScrapeEnv) (db0 : List Row) :
    (scrapeJobs cfg env db0).released = true := by
  unfold scrapeJobs
  split
  · split
    · rfl
    · dsimp only
      split <;> rfl
  · rfl

/-- C9: a run that reaches persistence (`saveCalled = true`) does not write
the JSON artifact: `scrape_jobs` only calls `_save_results`, which writes
the database alone; `_save_results_json` is never invoked by any caller
(and would raise `NameError`, since `scraper.py` does not import `os`),
although the `_save_results` docstring promises a JSON file. -/
theorem c9_no_json_export :
    (scrapeJobs cfg0 envC9 []).saveCalled = true
    ∧ (scrapeJobs cfg0 envC9 []).jsonWritten = false := by
  refine ⟨rfl, rfl⟩
